import Mathlib

/-!
Verification development for the syggrel-chat core subsystems:
the sliding-window message buffer (src/core/buffer.rs), the coordinated
chat-data cache (src/core/chat_data.rs) and the tunnel messenger
(src/core/messenger.rs), shallowly embedded in Lean.

Conventions of the embedding: Rust `String` is Lean `String` and
`String::len` (the UTF-8 byte length) is `String.utf8ByteSize`;
`VecDeque` front-to-back is a Lean list head-to-tail (head = oldest);
`usize` arithmetic is `Nat` (the source only subtracts quantities it
previously added, so truncated subtraction agrees); time is measured in
whole milliseconds as `Nat`.
-/

/-- Byte accounting for a queue of messages: the sum of the UTF-8 byte
lengths of its elements, mirroring the running `total_bytes` counter. -/
def sumBytes (msgs : List String) : Nat :=
  (msgs.map String.utf8ByteSize).sum

/-- `MAX_MESSAGES` from src/core/buffer.rs. -/
def MAX_MESSAGES : Nat := 256

/-- `MAX_TOTAL_BYTES` from src/core/buffer.rs (16 MiB). -/
def MAX_TOTAL_BYTES : Nat := 16 * 1024 * 1024

/-- `SlidingWindowBuffer` from src/core/buffer.rs: `messages` is the
`VecDeque<String>` with the head of the list being the front (oldest)
entry, `total_bytes` the running byte counter, and the two limits. -/
structure SlidingWindowBuffer where
  messages : List String
  total_bytes : Nat
  max_messages : Nat
  max_bytes : Nat
deriving DecidableEq

/-- `SlidingWindowBuffer::new`. -/
def SlidingWindowBuffer.new (max_messages max_bytes : Nat) : SlidingWindowBuffer :=
  { messages := [], total_bytes := 0, max_messages := max_messages, max_bytes := max_bytes }

/-- The eviction loop inside `SlidingWindowBuffer::add_message`:
while the count limit or the byte limit is exceeded, pop the front
(oldest) message and subtract its byte length; the source also breaks
out when the queue is empty, which coincides with the `[]` case here. -/
def evictLoop (maxM maxB : Nat) : List String → Nat → List String × Nat
  | [], total => ([], total)
  | m :: rest, total =>
    if (m :: rest).length > maxM ∨ total > maxB then
      evictLoop maxM maxB rest (total - m.utf8ByteSize)
    else (m :: rest, total)

/-- `SlidingWindowBuffer::add_message`: push the message at the back,
add its byte length to `total_bytes`, then run the eviction loop. -/
def SlidingWindowBuffer.add_message (b : SlidingWindowBuffer) (msg : String) : SlidingWindowBuffer :=
  let p := evictLoop b.max_messages b.max_bytes
    (b.messages ++ [msg]) (b.total_bytes + msg.utf8ByteSize)
  { b with messages := p.1, total_bytes := p.2 }

/-- The pop loop inside `SlidingWindowBuffer::get_next_n_messages`:
pop the front message `n` times (the caller has already clamped `n` to
the queue length), collecting the popped messages in order and
subtracting each popped message's byte length from the counter.
Returns (popped, remaining queue, remaining byte counter). -/
def drainLoop : Nat → List String → Nat → List String × List String × Nat
  | 0, msgs, total => ([], msgs, total)
  | _ + 1, [], total => ([], [], total)
  | n + 1, m :: rest, total =>
    let p := drainLoop n rest (total - m.utf8ByteSize)
    (m :: p.1, p.2.1, p.2.2)

/-- `SlidingWindowBuffer::get_next_n_messages`: clamp the requested
count to the queue length, then pop that many messages from the front.
Returns the popped messages (oldest first) and the updated buffer. -/
def SlidingWindowBuffer.get_next_n_messages (b : SlidingWindowBuffer) (count : Nat) :
    List String × SlidingWindowBuffer :=
  let c := min count b.messages.length
  let p := drainLoop c b.messages b.total_bytes
  (p.1, { b with messages := p.2.1, total_bytes := p.2.2 })

/-- The buffer constructed by `MessageBuffer::new`:
a `SlidingWindowBuffer` with the two source constants as limits. -/
def stdBuffer : SlidingWindowBuffer :=
  SlidingWindowBuffer.new MAX_MESSAGES MAX_TOTAL_BYTES

/-- Well-formedness of the byte accounting: the `total_bytes` counter
equals the sum of the byte lengths of the queued messages. -/
def bufferWF (b : SlidingWindowBuffer) : Prop :=
  b.total_bytes = sumBytes b.messages

instance (b : SlidingWindowBuffer) : Decidable (bufferWF b) := by
  unfold bufferWF; infer_instance

/-- One externally visible buffer mutation: a push (`add_message`,
reached through `MessageBuffer::push_message`) or a drain
(`get_next_n_messages`, reached through `MessageBuffer::take_messages`). -/
inductive BufOp where
  | push (msg : String)
  | drain (k : Nat)

/-- Apply one buffer mutation. -/
def applyOp (b : SlidingWindowBuffer) : BufOp → SlidingWindowBuffer
  | .push msg => b.add_message msg
  | .drain k => (b.get_next_n_messages k).2

/-- Run a sequence of buffer mutations from a starting state. -/
def runOps (b : SlidingWindowBuffer) (ops : List BufOp) : SlidingWindowBuffer :=
  ops.foldl applyOp b

example : (stdBuffer.add_message "hello").messages = ["hello"] := by decide
example : ((SlidingWindowBuffer.new 2 3).add_message "abcd").messages = [] := by decide
example : ((SlidingWindowBuffer.new 2 3).add_message "abcd").total_bytes = 0 := by decide
example :
    (((SlidingWindowBuffer.new 2 100).add_message "a").add_message "bb").add_message "c"
      = { messages := ["bb", "c"], total_bytes := 3, max_messages := 2, max_bytes := 100 } := by
  decide
example :
    ((SlidingWindowBuffer.new 4 100).add_message "a" |>.add_message "bb"
      |>.add_message "c" |>.get_next_n_messages 2)
      = (["a", "bb"], { messages := ["c"], total_bytes := 1, max_messages := 4, max_bytes := 100 }) := by
  decide

-- ---- Buffer bookkeeping lemmas ----

theorem sumBytes_nil : sumBytes [] = 0 := rfl

theorem sumBytes_cons (m : String) (rest : List String) :
    sumBytes (m :: rest) = m.utf8ByteSize + sumBytes rest := by
  simp [sumBytes]

theorem sumBytes_append (a b : List String) :
    sumBytes (a ++ b) = sumBytes a + sumBytes b := by
  simp [sumBytes]

/-- The eviction loop, started on a queue whose byte counter is exact,
removes some number `k` of oldest entries, keeps the counter exact, and
stops in a state satisfying both limits. -/
theorem evictLoop_spec (maxM maxB : Nat) :
    ∀ (msgs : List String) (total : Nat), total = sumBytes msgs →
    ∃ k, evictLoop maxM maxB msgs total = (msgs.drop k, sumBytes (msgs.drop k))
      ∧ (msgs.drop k).length ≤ maxM ∧ sumBytes (msgs.drop k) ≤ maxB := by
  intro msgs
  induction msgs with
  | nil =>
    intro total h
    refine ⟨0, ?_, ?_, ?_⟩ <;> simp_all [evictLoop, sumBytes]
  | cons m rest ih =>
    intro total h
    by_cases hc : (m :: rest).length > maxM ∨ total > maxB
    · have h2 : total - m.utf8ByteSize = sumBytes rest := by
        rw [h, sumBytes_cons]; omega
      obtain ⟨k, hk, h1, hb⟩ := ih _ h2
      refine ⟨k + 1, ?_, ?_, ?_⟩
      · simp only [evictLoop, if_pos hc, List.drop_succ_cons]
        exact hk
      · simpa using h1
      · simpa using hb
    · refine ⟨0, ?_, ?_, ?_⟩
      · simp only [evictLoop, if_neg hc, List.drop_zero]
        rw [h]
      · push_neg at hc
        rw [List.drop_zero]
        exact hc.1
      · push_neg at hc
        rw [List.drop_zero, ← h]
        exact hc.2

/-- The drain pop-loop returns the first `n` entries, leaves the rest,
and subtracts exactly the bytes of what it removed. -/
theorem drainLoop_eq : ∀ (n : Nat) (msgs : List String) (total : Nat),
    drainLoop n msgs total = (msgs.take n, msgs.drop n, total - sumBytes (msgs.take n)) := by
  intro n
  induction n with
  | zero => intro msgs total; simp [drainLoop, sumBytes]
  | succ n ih =>
    intro msgs total
    cases msgs with
    | nil => simp [drainLoop, sumBytes]
    | cons m rest => simp [drainLoop, ih, sumBytes_cons, Nat.sub_sub]

/-- `add_message` on a well-formed buffer drops some number `k` of
oldest entries of the extended queue, keeps the byte counter exact, and
ends within both limits. -/
theorem add_message_spec (b : SlidingWindowBuffer) (msg : String) (hwf : bufferWF b) :
    ∃ k, (b.add_message msg).messages = (b.messages ++ [msg]).drop k
      ∧ (b.add_message msg).total_bytes = sumBytes ((b.messages ++ [msg]).drop k)
      ∧ (b.add_message msg).messages.length ≤ b.max_messages
      ∧ (b.add_message msg).total_bytes ≤ b.max_bytes
      ∧ bufferWF (b.add_message msg) := by
  have h : b.total_bytes + msg.utf8ByteSize = sumBytes (b.messages ++ [msg]) := by
    rw [sumBytes_append, hwf, sumBytes_cons, sumBytes_nil]; omega
  obtain ⟨k, hk, hm, hb⟩ :=
    evictLoop_spec b.max_messages b.max_bytes (b.messages ++ [msg])
      (b.total_bytes + msg.utf8ByteSize) h
  refine ⟨k, ?_, ?_, ?_, ?_, ?_⟩ <;>
    simp_all [SlidingWindowBuffer.add_message, bufferWF]

theorem add_message_wf (b : SlidingWindowBuffer) (msg : String) (hwf : bufferWF b) :
    bufferWF (b.add_message msg) :=
  (add_message_spec b msg hwf).choose_spec.2.2.2.2

theorem get_next_n_messages_wf (b : SlidingWindowBuffer) (k : Nat) (hwf : bufferWF b) :
    bufferWF (b.get_next_n_messages k).2 := by
  unfold bufferWF at *
  simp only [SlidingWindowBuffer.get_next_n_messages, drainLoop_eq]
  have hsplit := List.take_append_drop (min k b.messages.length) b.messages
  have : sumBytes b.messages
      = sumBytes (b.messages.take (min k b.messages.length))
        + sumBytes (b.messages.drop (min k b.messages.length)) := by
    conv_lhs => rw [← hsplit]
    rw [sumBytes_append]
  omega

theorem runOps_wf (ops : List BufOp) (b : SlidingWindowBuffer) (hwf : bufferWF b) :
    bufferWF (runOps b ops) := by
  induction ops generalizing b with
  | nil => exact hwf
  | cons op rest ih =>
    cases op with
    | push msg => exact ih _ (add_message_wf b msg hwf)
    | drain k => exact ih _ (get_next_n_messages_wf b k hwf)

theorem applyOp_limits (b : SlidingWindowBuffer) (op : BufOp) :
    (applyOp b op).max_messages = b.max_messages ∧ (applyOp b op).max_bytes = b.max_bytes := by
  cases op <;>
    simp [applyOp, SlidingWindowBuffer.add_message, SlidingWindowBuffer.get_next_n_messages]

theorem runOps_limits (ops : List BufOp) (b : SlidingWindowBuffer) :
    (runOps b ops).max_messages = b.max_messages ∧ (runOps b ops).max_bytes = b.max_bytes := by
  induction ops generalizing b with
  | nil => exact ⟨rfl, rfl⟩
  | cons op rest ih =>
    have h1 := applyOp_limits b op
    have h2 := ih (applyOp b op)
    exact ⟨h2.1.trans h1.1, h2.2.trans h1.2⟩

-- ---- Coordinated cache (src/core/chat_data.rs) ----

/-- `ChatId` from src/core/chat_data.rs: opaque string key. -/
structure ChatId where
  key : String
deriving DecidableEq

/-- `ChatItem` from src/core/chat_data.rs; the chrono UTC timestamp is
modelled as an integer (milliseconds since the epoch), `u32` as `Nat`. -/
structure ChatItem where
  id : ChatId
  name : String
  last_message : Option String
  timestamp : Int
  unread_count : Nat
  is_online : Bool
deriving DecidableEq

/-- The `Arc<[ChatItem]>` snapshot committed by a successful load. -/
def Snapshot : Type := List ChatItem

instance : DecidableEq Snapshot := by
  unfold Snapshot; infer_instance

/-- `DataError` from src/core/chat_data.rs. -/
inductive DataError where
  | Network (msg : String)
  | Timeout
  | Server (msg : String)
  | Parse (msg : String)
  | Unauthorized
  | Database (msg : String)
deriving DecidableEq

deriving instance DecidableEq for Except

/-- The mutable state of `ChatDataProvider`: the cached snapshot
(`chats : Arc<Mutex<Option<Arc<[ChatItem]>>>>`) and the atomic
`is_loading` flag. The `Notify` channel carries no state; broadcasts
are recorded as trace events instead. -/
structure CacheState where
  chats : Option Snapshot
  is_loading : Bool
deriving DecidableEq

/-- `ChatDataProvider::new`: empty cache, flag clear. -/
def CacheState.new : CacheState := { chats := none, is_loading := false }

/-- Modelled from the spec: `do_load_chats` is the opaque external
fetch capability (`fetchConversations()` of the storage collaborator,
spec section 6); the repository calls it but its body is not under
src/. One call is modelled by one scripted step: the result the call
would produce and the time in milliseconds it takes to produce it. -/
structure FetchStep where
  result : Except DataError Snapshot
  dur : Nat
deriving DecidableEq

/-- The outcome of `timeout_at(deadline, self.do_load_chats())` for one
fetch call starting at `now` against a script of fetch behaviours:
`none` means the deadline elapsed first (the timer wins only when the
fetch is not already complete — `timeout_at` polls the inner future
first — and an empty script means the fetch never completes). -/
def fetchOutcome : List FetchStep → Nat → Nat → Option (Except DataError Snapshot)
  | [], _, _ => none
  | step :: _, now, deadline =>
    if step.dur = 0 ∨ now + step.dur ≤ deadline then some step.result else none

/-- One observable effect of `load_chats`, in program order: committing
a snapshot to the cache, storing `false` to the loading flag, or
broadcasting `notify_waiters`. -/
inductive CacheEvent where
  | commit (s : Snapshot)
  | clearFlag
  | broadcast
deriving DecidableEq

/-- The state mutation performed by one effect (a broadcast mutates no
state; it only wakes waiters). -/
def applyEvent (st : CacheState) : CacheEvent → CacheState
  | .commit s => { st with chats := some s }
  | .clearFlag => { st with is_loading := false }
  | .broadcast => st

/-- Apply a sequence of effects in order. -/
def applyTrace (st : CacheState) (tr : List CacheEvent) : CacheState :=
  tr.foldl applyEvent st

/-- The loader arm of `ChatDataProvider::load_chats` (the branch taken
after winning the compare-exchange), lines 151-178: one call to
`do_load_chats` under `timeout_at(deadline, ..)`; on success commit the
snapshot, clear the flag, broadcast; on error or timeout clear the flag
and broadcast. Returns the effect trace in program order, the returned
result, and the number of `do_load_chats` invocations. -/
def loaderPath (script : List FetchStep) (now deadline : Nat) :
    List CacheEvent × Except DataError Snapshot × Nat :=
  match fetchOutcome script now deadline with
  | some (.ok data) => ([.commit data, .clearFlag, .broadcast], .ok data, 1)
  | some (.error e) => ([.clearFlag, .broadcast], .error e, 1)
  | none => ([.clearFlag, .broadcast], .error .Timeout, 1)

/-- One wake of a waiter: the time the `notify_waiters` broadcast
reaches it, and the cache contents and loading-flag value it can
observe at that moment. -/
structure WakeEvent where
  time : Nat
  cache : Option Snapshot
  loading : Bool
deriving DecidableEq

/-- What a waiter iteration does, recorded so that the presence or
absence of a loader-claim attempt is expressible. -/
inductive WaiterAction where
  | woke
  | cacheChecked (found : Bool)
  | attemptedClaim
deriving DecidableEq

/-- The waiter arm of `ChatDataProvider::load_chats`, lines 182-198:
loop; return `Timeout` once `now >= deadline`; wait for the next
broadcast bounded by the deadline (no broadcast in time, including no
broadcast ever, returns `Timeout`); on wake re-check the cache and
return its contents if present, otherwise loop. The action trace
records each wake and cache check. -/
def waiter_loop : List WakeEvent → Nat → Nat → Except DataError Snapshot × List WaiterAction
  | [], _, _ => (.error .Timeout, [])
  | w :: rest, now, deadline =>
    if deadline ≤ now then (.error .Timeout, [])
    else if deadline < w.time then (.error .Timeout, [])
    else
      match w.cache with
      | some data => (.ok data, [.woke, .cacheChecked true])
      | none =>
        let p := waiter_loop rest w.time deadline
        (p.1, .woke :: .cacheChecked false :: p.2)

/-- `ChatDataProvider::load_chats`, lines 133-199: return the cached
snapshot if present; otherwise the compare-exchange on `is_loading`
succeeds exactly when the flag is clear, making this caller the loader;
otherwise the caller runs the waiter loop (which performs no cache
effects and no fetch calls). -/
def load_chats (st : CacheState) (script : List FetchStep) (wakes : List WakeEvent)
    (now deadline : Nat) : List CacheEvent × Except DataError Snapshot × Nat :=
  match st.chats with
  | some data => ([], .ok data, 0)
  | none =>
    if st.is_loading then ([], (waiter_loop wakes now deadline).1, 0)
    else loaderPath script now deadline

/-- `ChatDataProvider::load_with_backoff_and_timeout`, lines 211-256:
up to `MAX_RETRIES = 3` attempts; before each attempt return `Timeout`
if no time remains; run one fetch under `timeout_at(deadline, ..)`;
on success return the data; on error with retries left compute the
backoff delay `min(100 * 2^attempt, 2000)` ms, return `Timeout` if
`now + delay` would reach the deadline, otherwise sleep and retry; on
error on the last attempt return that error; on fetch timeout return
`Timeout`. `fuel` counts the loop iterations still permitted
(`MAX_RETRIES - attempt`); the `fuel = 0` case is the source's
`unreachable!()`. Returns the result, the number of `do_load_chats`
invocations, and the clock at return. -/
def lwbat_loop : Nat → Nat → List FetchStep → Nat → Nat → Nat →
    Except DataError Snapshot × Nat × Nat
  | 0, _, _, now, _, calls => (.error .Timeout, calls, now)
  | fuel + 1, attempt, script, now, deadline, calls =>
    if deadline - now = 0 then (.error .Timeout, calls, now)
    else
      match script with
      | [] => (.error .Timeout, calls + 1, deadline)
      | step :: rest =>
        if step.dur = 0 ∨ now + step.dur ≤ deadline then
          match step.result with
          | .ok data => (.ok data, calls + 1, now + step.dur)
          | .error e =>
            if attempt < 3 - 1 then
              let delay := min (100 * 2 ^ attempt) 2000
              if deadline ≤ now + step.dur + delay then
                (.error .Timeout, calls + 1, now + step.dur)
              else
                lwbat_loop fuel (attempt + 1) rest (now + step.dur + delay) deadline (calls + 1)
            else (.error e, calls + 1, now + step.dur)
        else (.error .Timeout, calls + 1, deadline)

/-- `load_with_backoff_and_timeout`: the retry loop entered at attempt
0 with all `MAX_RETRIES = 3` iterations permitted. This method exists
in the source but is never called: `load_chats` line 151 invokes
`do_load_chats` directly. -/
def load_with_backoff_and_timeout (script : List FetchStep) (now deadline : Nat) :
    Except DataError Snapshot × Nat × Nat :=
  lwbat_loop 3 0 script now deadline 0

/-- A demonstration snapshot used by concrete scenarios. -/
def demoSnap : Snapshot :=
  [{ id := { key := "c1" }, name := "alice", last_message := none,
     timestamp := 0, unread_count := 0, is_online := true }]

/-- The fetch script of spec Scenario C: two retryable failures, then
success, each call instantaneous. -/
def scenarioC : List FetchStep :=
  [{ result := .error (.Network "boom"), dur := 0 },
   { result := .error (.Network "boom"), dur := 0 },
   { result := .ok demoSnap, dur := 0 }]

example : load_with_backoff_and_timeout scenarioC 0 1000 = (.ok demoSnap, 3, 300) := by decide
example : load_chats CacheState.new scenarioC [] 0 1000
    = ([.clearFlag, .broadcast], .error (.Network "boom"), 1) := by decide
example : waiter_loop [{ time := 10, cache := none, loading := false }] 0 100
    = (.error .Timeout, [.woke, .cacheChecked false]) := by decide

-- ---- Tunnel messenger (src/core/messenger.rs) ----

/-- `YggdrasilMessenger` from src/core/messenger.rs: the inbound
`MessageBuffer` (a `SlidingWindowBuffer` with the standard limits),
whether a duplex-task `JoinHandle` is held, and the outbound queue.
`message_tx : Option (List String)` models
`Option<mpsc::UnboundedSender<String>>` together with the queued
contents of the unbounded channel; within the synchronous API the
sender, when present, always accepts a message (the receiving end is
owned by the spawned duplex task). -/
structure YggdrasilMessenger where
  buffer : SlidingWindowBuffer
  connection_handle : Bool
  message_tx : Option (List String)
deriving DecidableEq

/-- `YggdrasilMessenger::new`: fresh buffer, no handle, no queue. -/
def YggdrasilMessenger.new : YggdrasilMessenger :=
  { buffer := stdBuffer, connection_handle := false, message_tx := none }

/-- The success path of `YggdrasilMessenger::connect_via_socks5`:
a fresh unbounded outbound queue is created and the duplex task
spawned (address parsing and tunnel establishment succeeded). -/
def YggdrasilMessenger.connect_via_socks5 (m : YggdrasilMessenger) : YggdrasilMessenger :=
  { m with message_tx := some [], connection_handle := true }

/-- The error of `send_message` when `message_tx` is `None`
(the source's boxed string "Not connected"). -/
inductive MessengerError where
  | NotConnected
deriving DecidableEq

/-- `YggdrasilMessenger::send_message`, lines 107-115: if an outbound
queue exists, enqueue the message and return success; otherwise fail
with the not-connected error. -/
def YggdrasilMessenger.send_message (m : YggdrasilMessenger) (msg : String) :
    Except MessengerError YggdrasilMessenger :=
  match m.message_tx with
  | some q => .ok { m with message_tx := some (q ++ [msg]) }
  | none => .error .NotConnected

/-- `YggdrasilMessenger::receive_messages`, lines 117-119: delegate to
`MessageBuffer::take_messages`, i.e. `get_next_n_messages` on the
buffer; no failure path exists in any state. -/
def YggdrasilMessenger.receive_messages (m : YggdrasilMessenger) (count : Nat) :
    List String × YggdrasilMessenger :=
  let p := m.buffer.get_next_n_messages count
  (p.1, { m with buffer := p.2 })

/-- `YggdrasilMessenger::disconnect`, lines 130-138: abort and discard
the duplex-task handle if any, then drop the outbound queue handle;
always succeeds. -/
def YggdrasilMessenger.disconnect (m : YggdrasilMessenger) : YggdrasilMessenger :=
  { m with connection_handle := false, message_tx := none }

-- ---- Shared drain helpers ----

theorem get_next_n_messages_fst (b : SlidingWindowBuffer) (k : Nat) :
    (b.get_next_n_messages k).1 = b.messages.take k := by
  simp only [SlidingWindowBuffer.get_next_n_messages, drainLoop_eq]
  rcases Nat.le_total k b.messages.length with h | h
  · rw [Nat.min_eq_left h]
  · rw [Nat.min_eq_right h, List.take_length, List.take_of_length_le h]

theorem get_next_n_messages_snd (b : SlidingWindowBuffer) (k : Nat) :
    ((b.get_next_n_messages k).2).messages = b.messages.drop k := by
  simp only [SlidingWindowBuffer.get_next_n_messages, drainLoop_eq]
  rcases Nat.le_total k b.messages.length with h | h
  · rw [Nat.min_eq_left h]
  · rw [Nat.min_eq_right h, List.drop_length, List.drop_eq_nil_of_le h]

-- ---- Claim theorems ----

/-- Claim C1: the claim says the loader arm of `load_chats` executes
the bounded fetch-with-retry sub-algorithm, so that a fetch failing
twice then succeeding within a 1 s deadline yields a successful load
with 3 fetch invocations. The code does not: `load_chats` line 151
calls `do_load_chats` directly, so on that very input it returns the
first fetch error after exactly 1 invocation, while the repository's
own (never-called) `load_with_backoff_and_timeout` on the same input
returns the snapshot after 3 invocations at 300 ms, exactly as the
claim and the provider's doc comment describe. -/
theorem load_chats_skips_retry_on_scenarioC :
    load_chats CacheState.new scenarioC [] 0 1000
      = ([.clearFlag, .broadcast], .error (.Network "boom"), 1)
    ∧ load_with_backoff_and_timeout scenarioC 0 1000 = (.ok demoSnap, 3, 300) := by
  decide

/-- Claim C2, counterexample: pushing the 4-byte message "abcd" into an
empty well-formed buffer with `max_bytes = 3` does not leave it as the
sole surviving entry — the eviction loop pops it too, leaving the
buffer empty. -/
theorem oversized_push_counterexample :
    (SlidingWindowBuffer.new 2 3).max_bytes < "abcd".utf8ByteSize
    ∧ bufferWF (SlidingWindowBuffer.new 2 3)
    ∧ ((SlidingWindowBuffer.new 2 3).add_message "abcd").messages ≠ ["abcd"]
    ∧ ((SlidingWindowBuffer.new 2 3).add_message "abcd").messages = [] := by
  decide

/-- Claim C2 (amended): push never fails, but a message whose byte
length alone exceeds `max_bytes` does not survive: eviction drains the
whole queue including the newly pushed message, leaving the buffer
empty with a zero byte counter. -/
theorem oversized_push_leaves_buffer_empty (b : SlidingWindowBuffer) (msg : String)
    (hwf : bufferWF b) (hbig : b.max_bytes < msg.utf8ByteSize) :
    (b.add_message msg).messages = [] ∧ (b.add_message msg).total_bytes = 0 := by
  obtain ⟨k, hm, ht, hlen, hb, _⟩ := add_message_spec b msg hwf
  by_cases hk : k ≤ b.messages.length
  · exfalso
    rw [List.drop_append_of_le_length hk, sumBytes_append, sumBytes_cons, sumBytes_nil] at ht
    omega
  · push_neg at hk
    have hlen2 : (b.messages ++ [msg]).length ≤ k := by
      simp only [List.length_append, List.length_cons, List.length_nil]
      omega
    rw [List.drop_eq_nil_of_le hlen2] at hm ht
    exact ⟨hm, by rw [ht, sumBytes_nil]⟩

theorem oversized_push_leaves_buffer_empty_witness :
    ((SlidingWindowBuffer.new 4 5).add_message "abcdef").messages = []
    ∧ ((SlidingWindowBuffer.new 4 5).add_message "abcdef").total_bytes = 0 :=
  oversized_push_leaves_buffer_empty (SlidingWindowBuffer.new 4 5) "abcdef"
    (by decide) (by decide)

/-- Claim C3: along every sequence of pushes and drains starting from
the buffer `MessageBuffer::new` constructs, every push ends with at
most 256 messages and at most 16 MiB of queued bytes. -/
theorem push_respects_limits (ops : List BufOp) (msg : String) :
    ((runOps stdBuffer ops).add_message msg).messages.length ≤ 256
    ∧ ((runOps stdBuffer ops).add_message msg).total_bytes ≤ 16 * 1024 * 1024 := by
  have hwf : bufferWF (runOps stdBuffer ops) := runOps_wf ops stdBuffer (by decide)
  obtain ⟨_, _, _, hm, hb, _⟩ := add_message_spec (runOps stdBuffer ops) msg hwf
  have hlim := runOps_limits ops stdBuffer
  have e1 : stdBuffer.max_messages = 256 := by decide
  have e2 : stdBuffer.max_bytes = 16 * 1024 * 1024 := by decide
  constructor
  · rw [← e1, ← hlim.1]; exact hm
  · rw [← e2, ← hlim.2]; exact hb

/-- Claim C4: on a successful load the loader emits, in program order,
the snapshot commit, then the loading-flag clear, then the wake-all
broadcast; consequently at no point from the start of the loader arm
(cache empty, flag just claimed) onward is the flag observable as
false while the cache is still empty. -/
theorem loader_success_commit_before_clear_before_broadcast
    (script : List FetchStep) (now deadline : Nat) (data : Snapshot)
    (h : fetchOutcome script now deadline = some (.ok data)) :
    loaderPath script now deadline = ([.commit data, .clearFlag, .broadcast], .ok data, 1)
    ∧ ∀ i : Nat,
        (applyTrace { chats := none, is_loading := true }
            ((loaderPath script now deadline).1.take i)).is_loading = false →
        (applyTrace { chats := none, is_loading := true }
            ((loaderPath script now deadline).1.take i)).chats ≠ none := by
  have heq : loaderPath script now deadline
      = ([.commit data, .clearFlag, .broadcast], .ok data, 1) := by
    simp [loaderPath, h]
  refine ⟨heq, ?_⟩
  intro i
  rw [heq]
  match i with
  | 0 => simp [applyTrace]
  | 1 => simp [applyTrace, applyEvent]
  | 2 => simp [applyTrace, applyEvent]
  | n + 3 =>
    rw [List.take_of_length_le (by simp)]
    simp [applyTrace, applyEvent]

theorem loader_success_order_witness :
    loaderPath [{ result := .ok demoSnap, dur := 0 }] 0 1000
      = ([.commit demoSnap, .clearFlag, .broadcast], .ok demoSnap, 1) :=
  (loader_success_commit_before_clear_before_broadcast
    [{ result := .ok demoSnap, dur := 0 }] 0 1000 demoSnap (by decide)).1

/-- Claim C5, counterexample: a waiter woken at 10 ms (deadline
100 ms) that finds the cache still empty and the loading flag clear —
the situation after a loader failure — does not attempt to become the
new loader: the code only re-checks the cache, waits again, and here
times out; no loader-claim attempt appears in its actions. -/
theorem waiter_no_reclaim_counterexample :
    waiter_loop [{ time := 10, cache := none, loading := false }] 0 100
      = (.error .Timeout, [.woke, .cacheChecked false])
    ∧ WaiterAction.attemptedClaim ∉
        (waiter_loop [{ time := 10, cache := none, loading := false }] 0 100).2 := by
  decide

/-- Claim C5 (amended): a woken waiter re-checks the cache; if it is
still empty the waiter only waits again or returns `Timeout` when the
deadline expires — it never attempts to become the new loader. -/
theorem waiter_only_waits_or_times_out (wakes : List WakeEvent) (now deadline : Nat)
    (h : ∀ w ∈ wakes, w.cache = none) :
    (waiter_loop wakes now deadline).1 = .error .Timeout
    ∧ WaiterAction.attemptedClaim ∉ (waiter_loop wakes now deadline).2 := by
  induction wakes generalizing now with
  | nil => simp [waiter_loop]
  | cons w rest ih =>
    have hw : w.cache = none := h w (List.mem_cons_self w rest)
    have hrest : ∀ x ∈ rest, x.cache = none := fun x hx => h x (List.mem_cons_of_mem w hx)
    by_cases h1 : deadline ≤ now
    · simp [waiter_loop, h1]
    · by_cases h2 : deadline < w.time
      · simp [waiter_loop, h1, h2]
      · have hr := ih w.time hrest
        constructor
        · simp only [waiter_loop, if_neg h1, if_neg h2, hw]
          exact hr.1
        · simp only [waiter_loop, if_neg h1, if_neg h2, hw, List.mem_cons]
          push_neg
          exact ⟨by simp, by simp, fun hmem => hr.2 hmem⟩

theorem waiter_only_waits_witness :
    (waiter_loop [{ time := 10, cache := none, loading := false },
                  { time := 20, cache := none, loading := true }] 0 100).1
      = .error .Timeout :=
  (waiter_only_waits_or_times_out
    [{ time := 10, cache := none, loading := false },
     { time := 20, cache := none, loading := true }] 0 100 (by decide)).1

/-- Claim C6: whenever the single fetch of the loader arm does not
succeed — it returns an error, or the deadline cuts it off — the loader
emits exactly the flag clear followed by the broadcast before
returning, leaves the cached snapshot of any state unchanged (with the
flag cleared), and returns `Timeout` when the deadline elapsed and the
source error kind otherwise. -/
theorem loader_failure_clears_and_broadcasts (script : List FetchStep) (now deadline : Nat)
    (h : ∀ s : Snapshot, fetchOutcome script now deadline ≠ some (.ok s)) :
    (loaderPath script now deadline).1 = [.clearFlag, .broadcast]
    ∧ (∀ st : CacheState,
        (applyTrace st (loaderPath script now deadline).1).chats = st.chats
        ∧ (applyTrace st (loaderPath script now deadline).1).is_loading = false)
    ∧ (loaderPath script now deadline).2.1
        = (match fetchOutcome script now deadline with
           | some (.error e) => .error e
           | _ => .error DataError.Timeout) := by
  match hf : fetchOutcome script now deadline with
  | some (.ok s) => exact absurd hf (h s)
  | some (.error e) => simp [loaderPath, hf, applyTrace, applyEvent]
  | none => simp [loaderPath, hf, applyTrace, applyEvent]

theorem loader_failure_witness :
    (loaderPath [{ result := .error .Unauthorized, dur := 0 }] 0 1000).1
      = [.clearFlag, .broadcast] :=
  (loader_failure_clears_and_broadcasts [{ result := .error .Unauthorized, dur := 0 }] 0 1000
    (by intro s hs; simp [fetchOutcome] at hs)).1

/-- Claim C7: draining `k` messages returns exactly the oldest
`min(k, count)` messages in arrival order, removes exactly those from
the buffer, and leaves the remaining messages in their original
order. -/
theorem drain_returns_oldest (b : SlidingWindowBuffer) (k : Nat) :
    (b.get_next_n_messages k).1 = b.messages.take k
    ∧ (b.get_next_n_messages k).1.length = min k b.messages.length
    ∧ ((b.get_next_n_messages k).2).messages = b.messages.drop k
    ∧ (b.get_next_n_messages k).1 ++ ((b.get_next_n_messages k).2).messages = b.messages := by
  refine ⟨get_next_n_messages_fst b k, ?_, get_next_n_messages_snd b k, ?_⟩
  · rw [get_next_n_messages_fst, List.length_take]
  · rw [get_next_n_messages_fst, get_next_n_messages_snd, List.take_append_drop]

/-- Claim C8: `send_message` fails with the not-connected error exactly
when no outbound queue exists; with a queue present it enqueues the
message at the back and succeeds; on a never-connected messenger, and
after `disconnect`, it fails with the not-connected error. -/
theorem send_message_not_connected_iff (m : YggdrasilMessenger) (msg : String) :
    (m.send_message msg = .error .NotConnected ↔ m.message_tx = none)
    ∧ (∀ q, m.message_tx = some q →
        m.send_message msg = .ok { m with message_tx := some (q ++ [msg]) })
    ∧ YggdrasilMessenger.new.send_message msg = .error .NotConnected
    ∧ (m.disconnect).send_message msg = .error .NotConnected := by
  refine ⟨?_, ?_, ?_, ?_⟩
  · match htx : m.message_tx with
    | some q => simp [YggdrasilMessenger.send_message, htx]
    | none => simp [YggdrasilMessenger.send_message, htx]
  · intro q hq
    simp [YggdrasilMessenger.send_message, hq]
  · rfl
  · simp [YggdrasilMessenger.send_message, YggdrasilMessenger.disconnect]

theorem send_message_not_connected_witness :
    YggdrasilMessenger.new.connect_via_socks5.send_message "hi"
      = .ok { YggdrasilMessenger.new.connect_via_socks5 with message_tx := some ["hi"] } :=
  (send_message_not_connected_iff YggdrasilMessenger.new.connect_via_socks5 "hi").2.1
    [] (by decide)

/-- Claim C9: the byte counter is exact bookkeeping — it equals the sum
of the byte lengths of the queued messages on a fresh buffer, and both
`add_message` (push with eviction) and `get_next_n_messages` (drain,
which subtracts each removed message's exact length) preserve that
equality. -/
theorem total_bytes_exact (maxM maxB : Nat) :
    bufferWF (SlidingWindowBuffer.new maxM maxB)
    ∧ ∀ (b : SlidingWindowBuffer) (msg : String) (k : Nat), bufferWF b →
        bufferWF (b.add_message msg) ∧ bufferWF (b.get_next_n_messages k).2 :=
  ⟨by simp [SlidingWindowBuffer.new, bufferWF, sumBytes],
   fun b msg k hwf => ⟨add_message_wf b msg hwf, get_next_n_messages_wf b k hwf⟩⟩

theorem total_bytes_exact_witness :
    bufferWF (stdBuffer.add_message "hi") ∧ bufferWF (stdBuffer.get_next_n_messages 1).2 :=
  (total_bytes_exact MAX_MESSAGES MAX_TOTAL_BYTES).2 stdBuffer "hi" 1 (by decide)

/-- Claim C10: `receive_messages` has no failure path in any messenger
state: it always returns the (possibly empty) oldest buffered
messages, also on a never-connected or disconnected messenger — in
contrast to `send_message`, which in those same queue-less states
fails with the not-connected error. -/
theorem receive_messages_never_fails (m : YggdrasilMessenger) (k : Nat) (msg : String) :
    (m.receive_messages k).1 = m.buffer.messages.take k
    ∧ ((m.disconnect).receive_messages k).1 = m.buffer.messages.take k
    ∧ (m.message_tx = none → m.send_message msg = .error .NotConnected) := by
  refine ⟨?_, ?_, ?_⟩
  · simp [YggdrasilMessenger.receive_messages, get_next_n_messages_fst]
  · simp [YggdrasilMessenger.receive_messages, YggdrasilMessenger.disconnect,
      get_next_n_messages_fst]
  · intro h
    simp [YggdrasilMessenger.send_message, h]

theorem receive_messages_never_fails_witness :
    (YggdrasilMessenger.new.receive_messages 3).1
        = YggdrasilMessenger.new.buffer.messages.take 3
    ∧ YggdrasilMessenger.new.send_message "hi" = .error .NotConnected :=
  ⟨(receive_messages_never_fails YggdrasilMessenger.new 3 "hi").1,
   (receive_messages_never_fails YggdrasilMessenger.new 3 "hi").2.2 (by decide)⟩
